import Mathlib

/-!
Verification development for the feed store of the pendor31c repository.

The embedded code is `src/context/PostContext.tsx` (the `PostProvider`
state: `posts`, `loading`, `hasMore`, `page`, and the operations
`fetchMorePosts`, `addPost`, `addNews`) and `src/components/Post.tsx`
(the `handleLike` optimistic like toggle).

Modelling conventions:
- A feed row (prediction or news) is reduced to the fields the verified
  logic inspects: its identifier and its creation timestamp. The
  timestamp is carried as an integer (the value of
  `new Date(created_at).getTime()` in the source).
- Remote queries and inserts are parameters of the operations: each
  operation takes the value the remote would have returned
  (`Except Unit _` for a fallible query) and returns the new local state
  together with a record of which remote calls were issued and which
  error, if any, escaped to the caller.
- The JavaScript array sort with comparator
  `(a, b) => time(b) - time(a)` is a stable descending sort by
  timestamp; it is embedded as a stable structural sort with the total
  relation `time(b) ≤ time(a)`.
-/

/-- One row of the merged feed (a prediction row or a news row), reduced
to the fields `fetchMorePosts` inspects: `id` and `created_at`
(as the integer returned by `new Date(...).getTime()`). -/
structure FeedItem where
  id : String
  created_at : Int
  deriving DecidableEq, Repr

/-- The constant `POSTS_PER_PAGE = 20` of PostContext.tsx. -/
def POSTS_PER_PAGE : Nat := 20

/-- The provider state of `PostProvider`: `posts`, `loading`, `hasMore`,
`page`. -/
structure PostsState where
  posts : List FeedItem
  loading : Bool
  hasMore : Bool
  page : Nat
  deriving DecidableEq, Repr

/-- The error kinds thrown by the store, named as in the specification:
`authenticationRequired` for a thrown 'User not authenticated',
`invalidInput` for a thrown 'Invalid odds value', and
`remoteOperationFailed` for a propagated query or insert error. -/
inductive PostError
  | authenticationRequired
  | invalidInput
  | remoteOperationFailed
  deriving DecidableEq, Repr

/-- Result of one remote range query: rows or an error. -/
abbrev QueryResult := Except Unit (List FeedItem)

/-- Environment of one `fetchMorePosts` call: the posts-table response
and the news-table response (fetched jointly via `Promise.all`). -/
abbrev FetchEnv := QueryResult × QueryResult

/-- The JS comparator `(a, b) => new Date(b.created_at).getTime() -
new Date(a.created_at).getTime()` keeps `a` before `b` exactly when the
comparator is non-positive, i.e. when `b.created_at ≤ a.created_at`. -/
def createdDescRel (a b : FeedItem) : Prop :=
  b.created_at ≤ a.created_at

instance : DecidableRel createdDescRel :=
  fun a b => inferInstanceAs (Decidable (b.created_at ≤ a.created_at))

instance : IsTotal FeedItem createdDescRel :=
  ⟨fun a b => le_total b.created_at a.created_at⟩

instance : IsTrans FeedItem createdDescRel :=
  ⟨fun _ _ _ h1 h2 => le_trans h2 h1⟩

/-- The `.sort(...)` call of line 86 of PostContext.tsx. The JS array
sort is stable (ES2019), so its result is the unique stable descending
reordering by timestamp; it is embedded as a stable structural sort
with the total preorder `createdDescRel`. -/
def jsSortByCreatedDesc (l : List FeedItem) : List FeedItem :=
  l.insertionSort createdDescRel

/-- The filter predicate of lines 89-91 of PostContext.tsx:
`newItem => !posts.some(existingItem => existingItem.id === newItem.id)`,
with `posts` the held list at call time. -/
def notHeld (held : List FeedItem) (it : FeedItem) : Bool :=
  !(held.any fun ex => ex.id == it.id)

/-- Observable outcome of one `fetchMorePosts` call: the provider state
afterwards, whether the two range queries were issued at all, and the
error that escaped to the caller (always `none` for this operation,
whose catch block only logs). -/
structure FetchOutcome where
  state : PostsState
  queriesIssued : Bool
  thrown : Option PostError
  deriving DecidableEq, Repr

/-- Embedding of `fetchMorePosts` (PostContext.tsx lines 55-101).
Guard: return immediately if `loading || !hasMore`. Otherwise both
queries are issued; an error in either response is thrown, caught and
swallowed (state unchanged, loading cleared). On success the two result
sets are concatenated, sorted descending by creation time, filtered
against the held list by id, appended, and `hasMore`/`page` updated. -/
def fetchMorePosts (s : PostsState) (env : FetchEnv) : FetchOutcome :=
  if s.loading || !s.hasMore then
    { state := s, queriesIssued := false, thrown := none }
  else
    match env with
    | (.error _, _) =>
      { state := { s with loading := false }, queriesIssued := true, thrown := none }
    | (.ok _, .error _) =>
      { state := { s with loading := false }, queriesIssued := true, thrown := none }
    | (.ok ps, .ok ns) =>
      let allContent := jsSortByCreatedDesc (ps ++ ns)
      let uniqueContent := allContent.filter (notHeld s.posts)
      { state :=
          { posts := s.posts ++ uniqueContent,
            loading := false,
            hasMore := uniqueContent.length == POSTS_PER_PAGE,
            page := s.page + 1 },
        queriesIssued := true,
        thrown := none }

/-- A sequence of `fetchMorePosts` calls, each with its own remote
responses, starting from state `s`. -/
def runFetches (s : PostsState) (envs : List FetchEnv) : PostsState :=
  envs.foldl (fun st e => (fetchMorePosts st e).state) s

/-- The identifiers carried by one successfully fetched page (both
result sets concatenated); empty for a failed fetch. -/
def pageIds : FetchEnv → List String
  | (.ok ps, .ok ns) => (ps ++ ns).map (·.id)
  | _ => []

/-- Input of `addPost`: `{ text, image, totalOdds, confidence }`.
An absent or empty odds string is the empty string (JS falsy). -/
structure AddPostInput where
  text : String
  image : Option String
  totalOdds : String
  confidence : Int
  deriving DecidableEq, Repr

/-- Row payload of the `posts` insert issued by `addPost`
(PostContext.tsx lines 115-128). -/
structure PostInsertPayload where
  content : String
  image_url : Option String
  odds : Rat
  confidence : Int
  user_id : String
  likes : Nat
  comments : Nat
  shares : Nat
  deriving DecidableEq, Repr

/-- Input of `addNews`: `{ title, source, content, image }`. An absent
or empty source is the empty string (JS falsy). -/
structure AddNewsInput where
  title : String
  source : String
  content : String
  image : Option String
  deriving DecidableEq, Repr

/-- Row payload of the `news` insert issued by `addNews`
(PostContext.tsx lines 151-164). -/
structure NewsInsertPayload where
  title : String
  source : Option String
  content : String
  image_url : Option String
  user_id : String
  likes : Nat
  comments : Nat
  shares : Nat
  deriving DecidableEq, Repr

/-- Observable outcome of a create operation: the held list afterwards,
the insert payload sent to the remote (`none` when validation failed
before any insert), and the error re-raised to the caller. -/
structure AddOutcome (π : Type) where
  posts : List FeedItem
  issuedInsert : Option π
  thrown : Option PostError
  deriving DecidableEq, Repr

/-- Decimal value of a digit string, most significant first. -/
def digitsVal (ds : List Char) : Nat :=
  ds.foldl (fun acc c => 10 * acc + (c.toNat - 48)) 0

/-- Model of the JS builtin `parseFloat`, restricted to the plain
decimal literals the odds field carries: optional sign, an integer
digit run, an optional fraction after a period; the longest such prefix
is parsed and `none` is the JS `NaN` (no digit found). Exponents and
`Infinity` are outside the inputs this store can produce after its
comma-to-period normalization and are not modelled. -/
def parseFloat (s : String) : Option Rat :=
  let cs := s.data
  let sgn : Int := if cs.head? = some '-' then -1 else 1
  let cs1 := if cs.head? = some '-' || cs.head? = some '+' then cs.tail else cs
  let intPart := cs1.takeWhile Char.isDigit
  let rest := cs1.dropWhile Char.isDigit
  let fracPart := if rest.head? = some '.' then rest.tail.takeWhile Char.isDigit else []
  if intPart.isEmpty && fracPart.isEmpty then none
  else
    some ((sgn : Rat) *
      ((digitsVal intPart : Rat) + (digitsVal fracPart : Rat) / (10 : Rat) ^ fracPart.length))

/-- Replacement of the first occurrence of one character by another, the
semantics of the JS `String.replace` with a one-character string
pattern (line 108 of PostContext.tsx replaces only the first comma). -/
def replaceFirstChar : List Char → Char → Char → List Char
  | [], _, _ => []
  | c :: r, a, b => if c = a then b :: r else c :: replaceFirstChar r a b

/-- The odds normalization of `addPost`:
`(newPost.totalOdds || '0').replace(',', '.')`. -/
def normalizeOdds (totalOdds : String) : String :=
  ⟨replaceFirstChar (if totalOdds = "" then "0" else totalOdds).data ',' '.'⟩

/-- Embedding of `addPost` (PostContext.tsx lines 103-144).
`authUser` is the identity `supabase.auth.getUser()` would return;
`insertResult` is the row the insert would return. Every thrown error
is logged and re-raised, so it appears in `thrown`. -/
def addPost (authUser : Option String) (newPost : AddPostInput)
    (insertResult : Except Unit FeedItem) (posts : List FeedItem) :
    AddOutcome PostInsertPayload :=
  match authUser with
  | none =>
    { posts := posts, issuedInsert := none, thrown := some .authenticationRequired }
  | some uid =>
    match parseFloat (normalizeOdds newPost.totalOdds) with
    | none =>
      { posts := posts, issuedInsert := none, thrown := some .invalidInput }
    | some odds =>
      let payload : PostInsertPayload :=
        { content := newPost.text, image_url := newPost.image, odds := odds,
          confidence := newPost.confidence, user_id := uid,
          likes := 0, comments := 0, shares := 0 }
      match insertResult with
      | .error _ =>
        { posts := posts, issuedInsert := some payload,
          thrown := some .remoteOperationFailed }
      | .ok item =>
        { posts := item :: posts, issuedInsert := some payload, thrown := none }

/-- Embedding of `addNews` (PostContext.tsx lines 146-180). -/
def addNews (authUser : Option String) (newNews : AddNewsInput)
    (insertResult : Except Unit FeedItem) (posts : List FeedItem) :
    AddOutcome NewsInsertPayload :=
  match authUser with
  | none =>
    { posts := posts, issuedInsert := none, thrown := some .authenticationRequired }
  | some uid =>
    let payload : NewsInsertPayload :=
      { title := newNews.title,
        source := if newNews.source = "" then none else some newNews.source,
        content := newNews.content, image_url := newNews.image,
        user_id := uid, likes := 0, comments := 0, shares := 0 }
    match insertResult with
    | .error _ =>
      { posts := posts, issuedInsert := some payload,
        thrown := some .remoteOperationFailed }
    | .ok item =>
      { posts := item :: posts, issuedInsert := some payload, thrown := none }

/-- The local state `handleLike` of Post.tsx reads and writes: the item
identifier, the title field (the news/prediction discriminator), the
like counter and the optimistic `isLiked` flag (`none`/absent title and
an absent `isLiked` are the JS falsy defaults). -/
structure LocalPost where
  id : String
  title : Option String
  likes : Int
  isLiked : Bool
  deriving DecidableEq, Repr

/-- A remote call issued by the like toggle: an insert into or a delete
from a like-join table, keyed by item id and user id. -/
inductive LikeOp
  | insertLike (table : String) (itemId : String) (userId : String)
  | deleteLike (table : String) (itemId : String) (userId : String)
  deriving DecidableEq, Repr

/-- JS truthiness of the `post.title` field: present and non-empty. -/
def titleTruthy : Option String → Bool
  | none => false
  | some s => !(s == "")

/-- Embedding of `handleLike` (Post.tsx lines 48-86). `user` is the
authenticated identity from the auth context; `remoteOk` tells whether
the awaited insert/delete resolved (when it rejects, the local update
after the await never runs and the catch block only logs). Returns the
new local post state and the remote calls issued. -/
def handleLike (user : Option String) (remoteOk : Bool) (p : LocalPost) :
    LocalPost × List LikeOp :=
  match user with
  | none => (p, [])
  | some uid =>
    let table := if titleTruthy p.title then "news_likes" else "post_likes"
    if p.isLiked then
      (if remoteOk then { p with likes := p.likes - 1, isLiked := false } else p,
       [.deleteLike table p.id uid])
    else
      (if remoteOk then { p with likes := p.likes + 1, isLiked := true } else p,
       [.insertLike table p.id uid])

/-! ### General lemmas about the merge step -/

lemma notHeld_eq_true_iff (held : List FeedItem) (it : FeedItem) :
    notHeld held it = true ↔ ∀ ex ∈ held, ex.id ≠ it.id := by
  simp [notHeld]

lemma mem_filter_notHeld {held l : List FeedItem} {it : FeedItem}
    (h : it ∈ l.filter (notHeld held)) : ∀ ex ∈ held, ex.id ≠ it.id :=
  (notHeld_eq_true_iff held it).mp (List.mem_filter.mp h).2

lemma fetchMorePosts_ok (s : PostsState) (ps ns : List FeedItem)
    (hl : s.loading = false) (hm : s.hasMore = true) :
    fetchMorePosts s (.ok ps, .ok ns) =
      { state :=
          { posts := s.posts ++ (jsSortByCreatedDesc (ps ++ ns)).filter (notHeld s.posts),
            loading := false,
            hasMore :=
              ((jsSortByCreatedDesc (ps ++ ns)).filter (notHeld s.posts)).length
                == POSTS_PER_PAGE,
            page := s.page + 1 },
        queriesIssued := true,
        thrown := none } := by
  simp [fetchMorePosts, hl, hm]

lemma nodup_ids_fetch_step (s : PostsState) (env : FetchEnv)
    (h1 : (s.posts.map (·.id)).Nodup) (h2 : (pageIds env).Nodup) :
    ((fetchMorePosts s env).state.posts.map (·.id)).Nodup := by
  obtain ⟨e1, e2⟩ := env
  cases hl : s.loading with
  | true => simp [fetchMorePosts, hl, h1]
  | false =>
  cases hm : s.hasMore with
  | false => simp [fetchMorePosts, hl, hm, h1]
  | true =>
    cases e1 with
    | error e => simp [fetchMorePosts, hl, hm, h1]
    | ok ps =>
      cases e2 with
      | error e => simp [fetchMorePosts, hl, hm, h1]
      | ok ns =>
        rw [fetchMorePosts_ok s ps ns hl hm]
        rw [List.map_append]
        refine List.Nodup.append h1 ?_ ?_
        · have hsub :
              ((jsSortByCreatedDesc (ps ++ ns)).filter (notHeld s.posts)).Sublist
                (jsSortByCreatedDesc (ps ++ ns)) := List.filter_sublist _
          have hperm : (jsSortByCreatedDesc (ps ++ ns)).Perm (ps ++ ns) :=
            List.perm_insertionSort _ _
          have hns : ((jsSortByCreatedDesc (ps ++ ns)).map (·.id)).Nodup := by
            refine (List.Perm.nodup_iff (List.Perm.map _ hperm)).mpr ?_
            simpa [pageIds] using h2
          exact List.Nodup.sublist (List.Sublist.map _ hsub) hns
        · intro a ha hb
          obtain ⟨ex, hex, hexid⟩ := List.mem_map.mp ha
          obtain ⟨it, hit, hitid⟩ := List.mem_map.mp hb
          exact mem_filter_notHeld hit ex hex (by rw [hexid, hitid])

/-! ### Small concrete rows used by the closed witness statements -/

def wPost : FeedItem := { id := "p0", created_at := 2 }

def wNews : FeedItem := { id := "n0", created_at := 1 }

def w0 : PostsState := { posts := [], loading := false, hasMore := true, page := 0 }

/-- C1's counterexample: a prediction row and a news row with the same
identifier inside the same fetched page are both kept, because the
dedup filter of `fetchMorePosts` compares only against the previously
held list — the later one is not dropped, and the held list ends with
two items of identifier "a". -/
theorem c1_counterexample :
    ((runFetches { posts := [], loading := false, hasMore := true, page := 0 }
        [(Except.ok [{ id := "a", created_at := 5 }],
          Except.ok [{ id := "a", created_at := 3 }])]).posts.map (·.id) = ["a", "a"]) ∧
    ¬ ((runFetches { posts := [], loading := false, hasMore := true, page := 0 }
        [(Except.ok [{ id := "a", created_at := 5 }],
          Except.ok [{ id := "a", created_at := 3 }])]).posts.map (·.id)).Nodup := by
  constructor <;> decide

/-- C1 (amended): `fetchMorePosts` deduplicates only against the
previously held list, so an identifier collision within a single
fetched page keeps both rows; under the assumption that every
successfully fetched page carries pairwise-distinct identifiers, every
sequence of fetch-more calls starting from a held list with distinct
identifiers keeps the held list free of duplicate identifiers. -/
theorem c1_nodup_ids_of_nodup_pages (envs : List FetchEnv) :
    ∀ s : PostsState, (s.posts.map (·.id)).Nodup →
      (∀ e ∈ envs, (pageIds e).Nodup) →
      ((runFetches s envs).posts.map (·.id)).Nodup := by
  induction envs with
  | nil =>
    intro s h0 _
    simpa [runFetches] using h0
  | cons e es ih =>
    intro s h0 hp
    show ((runFetches (fetchMorePosts s e).state es).posts.map (·.id)).Nodup
    exact ih (fetchMorePosts s e).state
      (nodup_ids_fetch_step s e h0 (hp e (List.mem_cons_self e es)))
      (fun x hx => hp x (List.mem_cons_of_mem e hx))

/-- C1 (amended) holds at a concrete run: one page with two distinct
identifiers fetched into an empty held list stays duplicate-free. -/
theorem c1_nodup_ids_of_nodup_pages_witness :
    ((runFetches { posts := [], loading := false, hasMore := true, page := 0 }
        [(Except.ok [{ id := "p0", created_at := 2 }],
          Except.ok [{ id := "n0", created_at := 1 }])]).posts.map (·.id)).Nodup :=
  c1_nodup_ids_of_nodup_pages
    [(Except.ok [{ id := "p0", created_at := 2 }],
      Except.ok [{ id := "n0", created_at := 1 }])]
    { posts := [], loading := false, hasMore := true, page := 0 }
    (by decide) (by decide)

/-- Fifteen distinct prediction rows, as in the spec's first-page
scenario. -/
def c2PostsRows : List FeedItem :=
  (List.range 15).map fun i => { id := "p" ++ toString i, created_at := (i : Int) }

/-- Ten distinct news rows, as in the spec's first-page scenario. -/
def c2NewsRows : List FeedItem :=
  (List.range 10).map fun i => { id := "n" ++ toString i, created_at := (i : Int) }

/-- C2's counterexample: the spec's own scenario (empty held list, 15
prediction rows plus 10 news rows, all 25 unique) yields a held list of
length 25 with pairwise-distinct identifiers, yet `hasMore` is false,
because the code compares the unique count for equality with 20
(`uniqueContent.length === POSTS_PER_PAGE`), not with "at least 20". -/
theorem c2_counterexample :
    (fetchMorePosts { posts := [], loading := false, hasMore := true, page := 0 }
        (Except.ok c2PostsRows, Except.ok c2NewsRows)).state.posts.length = 25 ∧
    ((fetchMorePosts { posts := [], loading := false, hasMore := true, page := 0 }
        (Except.ok c2PostsRows, Except.ok c2NewsRows)).state.posts.map (·.id)).Nodup ∧
    (fetchMorePosts { posts := [], loading := false, hasMore := true, page := 0 }
        (Except.ok c2PostsRows, Except.ok c2NewsRows)).state.hasMore = false := by
  refine ⟨by decide, by decide, by decide⟩

/-- C2 (amended): after a successful, non-skipped fetch-more call,
`hasMore` is false exactly when the newly-unique item count differs
from 20 — in particular a call producing more than 20 unique items also
sets `hasMore` to false. -/
theorem c2_hasMore_false_iff_ne_pageSize (s : PostsState) (ps ns : List FeedItem)
    (hl : s.loading = false) (hm : s.hasMore = true) :
    ((fetchMorePosts s (.ok ps, .ok ns)).state.hasMore = false ↔
      ((jsSortByCreatedDesc (ps ++ ns)).filter (notHeld s.posts)).length
        ≠ POSTS_PER_PAGE) := by
  rw [fetchMorePosts_ok s ps ns hl hm]
  simp

/-- C2 (amended) holds at a concrete call: two unique items is not 20,
so `hasMore` ends false. -/
theorem c2_hasMore_false_iff_ne_pageSize_witness :
    ((fetchMorePosts w0 (.ok [wPost], .ok [wNews])).state.hasMore = false ↔
      ((jsSortByCreatedDesc ([wPost] ++ [wNews])).filter (notHeld w0.posts)).length
        ≠ POSTS_PER_PAGE) :=
  c2_hasMore_false_iff_ne_pageSize w0 [wPost] [wNews] rfl rfl

/-- C3: postcondition of a successful, non-skipped fetch-more call. The
two result sets concatenated and stably sorted descending by creation
timestamp form the merge; the rows whose identifier already occurs in
the held list are removed; the remainder is appended at the end of the
held list; `hasMore` is true iff exactly 20 rows were newly unique; the
page counter increments by one. -/
theorem c3_fetchMore_success_postcondition (s : PostsState) (ps ns : List FeedItem)
    (hl : s.loading = false) (hm : s.hasMore = true) :
    (jsSortByCreatedDesc (ps ++ ns)).Perm (ps ++ ns) ∧
    List.Sorted createdDescRel (jsSortByCreatedDesc (ps ++ ns)) ∧
    (∀ it ∈ (jsSortByCreatedDesc (ps ++ ns)).filter (notHeld s.posts),
      ∀ ex ∈ s.posts, ex.id ≠ it.id) ∧
    (fetchMorePosts s (.ok ps, .ok ns)).state.posts =
      s.posts ++ (jsSortByCreatedDesc (ps ++ ns)).filter (notHeld s.posts) ∧
    ((fetchMorePosts s (.ok ps, .ok ns)).state.hasMore = true ↔
      ((jsSortByCreatedDesc (ps ++ ns)).filter (notHeld s.posts)).length
        = POSTS_PER_PAGE) ∧
    (fetchMorePosts s (.ok ps, .ok ns)).state.page = s.page + 1 := by
  refine ⟨List.perm_insertionSort _ _, List.sorted_insertionSort _ _,
    fun it hit ex hex => mem_filter_notHeld hit ex hex, ?_, ?_, ?_⟩
  · rw [fetchMorePosts_ok s ps ns hl hm]
  · rw [fetchMorePosts_ok s ps ns hl hm]
    simp
  · rw [fetchMorePosts_ok s ps ns hl hm]

/-- C3 holds at a concrete call on an empty held list with one
prediction row and one news row. -/
theorem c3_fetchMore_success_postcondition_witness :
    (jsSortByCreatedDesc ([wPost] ++ [wNews])).Perm ([wPost] ++ [wNews]) ∧
    List.Sorted createdDescRel (jsSortByCreatedDesc ([wPost] ++ [wNews])) ∧
    (∀ it ∈ (jsSortByCreatedDesc ([wPost] ++ [wNews])).filter (notHeld w0.posts),
      ∀ ex ∈ w0.posts, ex.id ≠ it.id) ∧
    (fetchMorePosts w0 (.ok [wPost], .ok [wNews])).state.posts =
      w0.posts ++ (jsSortByCreatedDesc ([wPost] ++ [wNews])).filter (notHeld w0.posts) ∧
    ((fetchMorePosts w0 (.ok [wPost], .ok [wNews])).state.hasMore = true ↔
      ((jsSortByCreatedDesc ([wPost] ++ [wNews])).filter (notHeld w0.posts)).length
        = POSTS_PER_PAGE) ∧
    (fetchMorePosts w0 (.ok [wPost], .ok [wNews])).state.page = w0.page + 1 :=
  c3_fetchMore_success_postcondition w0 [wPost] [wNews] rfl rfl

/-- C4: when either of the two issued queries fails, the held list,
`hasMore` and the page counter are unchanged, loading ends cleared, and
no error reaches the caller (the catch block only logs). -/
theorem c4_fetchMore_failure_swallowed (s : PostsState) (e1 e2 : QueryResult)
    (hl : s.loading = false) (hm : s.hasMore = true)
    (herr : e1 = Except.error () ∨ e2 = Except.error ()) :
    (fetchMorePosts s (e1, e2)).state.posts = s.posts ∧
    (fetchMorePosts s (e1, e2)).state.hasMore = s.hasMore ∧
    (fetchMorePosts s (e1, e2)).state.page = s.page ∧
    (fetchMorePosts s (e1, e2)).state.loading = false ∧
    (fetchMorePosts s (e1, e2)).queriesIssued = true ∧
    (fetchMorePosts s (e1, e2)).thrown = none := by
  rcases herr with h | h
  · subst h
    cases e2 <;> simp [fetchMorePosts, hl, hm]
  · subst h
    cases e1 <;> simp [fetchMorePosts, hl, hm]

/-- C4 holds at a concrete call whose posts query fails. -/
theorem c4_fetchMore_failure_swallowed_witness :
    (fetchMorePosts w0 (Except.error (), Except.ok [wNews])).state.posts = w0.posts ∧
    (fetchMorePosts w0 (Except.error (), Except.ok [wNews])).state.hasMore = w0.hasMore ∧
    (fetchMorePosts w0 (Except.error (), Except.ok [wNews])).state.page = w0.page ∧
    (fetchMorePosts w0 (Except.error (), Except.ok [wNews])).state.loading = false ∧
    (fetchMorePosts w0 (Except.error (), Except.ok [wNews])).queriesIssued = true ∧
    (fetchMorePosts w0 (Except.error (), Except.ok [wNews])).thrown = none :=
  c4_fetchMore_failure_swallowed w0 (Except.error ()) (Except.ok [wNews]) rfl rfl
    (Or.inl rfl)

/-- C5: a fetch-more call while `loading` is set, or after `hasMore`
became false, is a complete no-op — no queries are issued and the state
is returned unchanged. -/
theorem c5_fetchMore_noop (s : PostsState) (env : FetchEnv)
    (h : s.loading = true ∨ s.hasMore = false) :
    fetchMorePosts s env = { state := s, queriesIssued := false, thrown := none } := by
  rcases h with h | h <;> simp [fetchMorePosts, h]

/-- C5 holds at a concrete loading state. -/
theorem c5_fetchMore_noop_witness :
    fetchMorePosts { posts := [wPost], loading := true, hasMore := true, page := 3 }
        (Except.ok [], Except.ok []) =
      { state := { posts := [wPost], loading := true, hasMore := true, page := 3 },
        queriesIssued := false, thrown := none } :=
  c5_fetchMore_noop { posts := [wPost], loading := true, hasMore := true, page := 3 }
    (Except.ok [], Except.ok []) (Or.inl rfl)

/-! ### Evaluation of the odds normalization and parsing -/

lemma parseFloat_two_fifty : parseFloat (normalizeOdds "2,50") = some (5 / 2 : Rat) := by
  have h : normalizeOdds "2,50" = "2.50" := rfl
  have hd : "2.50".data = ['2', '.', '5', '0'] := rfl
  rw [h]
  simp +decide [parseFloat, digitsVal, hd]
  norm_num

lemma parseFloat_abc : parseFloat (normalizeOdds "abc") = none := by
  have h : normalizeOdds "abc" = "abc" := rfl
  have hd : "abc".data = ['a', 'b', 'c'] := rfl
  rw [h]
  simp +decide [parseFloat, hd]

lemma parseFloat_empty_odds : parseFloat (normalizeOdds "") = some 0 := by
  have h : normalizeOdds "" = "0" := rfl
  have hd : "0".data = ['0'] := rfl
  rw [h]
  simp +decide [parseFloat, digitsVal, hd]

/-- C6: for an authenticated actor, `addPost` normalizes the comma to a
period before parsing: odds string "2,50" parses to 5/2 and the insert
is issued carrying that value, while odds string "abc" parses to
not-a-number, so the call fails with InvalidInput, issues no insert and
leaves the held list unchanged. -/
theorem c6_addPost_odds_parsing (uid text : String) (image : Option String)
    (conf : Int) (res : Except Unit FeedItem) (posts : List FeedItem) :
    ((addPost (some uid)
        { text := text, image := image, totalOdds := "2,50", confidence := conf }
        res posts).issuedInsert.map (·.odds) = some (5 / 2 : Rat)) ∧
    (addPost (some uid)
        { text := text, image := image, totalOdds := "abc", confidence := conf }
        res posts =
      { posts := posts, issuedInsert := none, thrown := some .invalidInput }) := by
  constructor
  · cases res <;> simp [addPost, parseFloat_two_fifty]
  · simp [addPost, parseFloat_abc]

/-- C7: without an authenticated actor both create operations fail with
AuthenticationRequired, issue no insert and leave the held list
unchanged. -/
theorem c7_add_without_auth_fails (np : AddPostInput) (nn : AddNewsInput)
    (res1 res2 : Except Unit FeedItem) (posts1 posts2 : List FeedItem) :
    (addPost none np res1 posts1 =
      { posts := posts1, issuedInsert := none,
        thrown := some .authenticationRequired }) ∧
    (addNews none nn res2 posts2 =
      { posts := posts2, issuedInsert := none,
        thrown := some .authenticationRequired }) :=
  ⟨rfl, rfl⟩

/-- C8: for any starting local state, activating the like toggle twice
in a row (authenticated, remote calls resolving) returns the whole
local post state — in particular the like counter and the isLiked
flag — to its original value. -/
theorem c8_handleLike_twice_restores (uid : String) (p : LocalPost) :
    (handleLike (some uid) true (handleLike (some uid) true p).1).1 = p := by
  cases p with
  | mk id title likes isLiked =>
    cases isLiked <;> simp [handleLike]

/-- C9: with no authenticated user the like toggle is a complete no-op:
no remote insert or delete is issued and the local state is returned
unchanged. -/
theorem c9_handleLike_unauthenticated_noop (remoteOk : Bool) (p : LocalPost) :
    handleLike none remoteOk p = (p, []) := rfl

/-- C10: for an authenticated actor, an empty (or missing) odds string
is substituted by "0", so `addPost` does not fail with InvalidInput: it
issues the insert with odds 0 and prepends the returned row. -/
theorem c10_addPost_empty_odds_defaults_zero (uid text : String)
    (image : Option String) (conf : Int) (item : FeedItem) (posts : List FeedItem) :
    addPost (some uid)
        { text := text, image := image, totalOdds := "", confidence := conf }
        (.ok item) posts =
      { posts := item :: posts,
        issuedInsert := some
          { content := text, image_url := image, odds := 0, confidence := conf,
            user_id := uid, likes := 0, comments := 0, shares := 0 },
        thrown := none } := by
  simp [addPost, parseFloat_empty_odds]
